import Mathlib

/-!
Verification of the cycle-length training pipeline (src/ml/train_model.py).

The pipeline's numeric data is embedded over `ℚ`.  A raw table cell is
either numeric or non-numeric text (`Cell`); `pd.to_numeric(..., errors =
coerce).dropna()` becomes `dropna`, which keeps the numeric cells in order.
`np.std` computes a real square root, which is irrational in general, so the
feature builder is parametrized by the function `stdFn` used for that single
component; no claim constrains its value.
-/

/-- A raw table cell: numeric, or non-numeric text (which `pd.to_numeric`
with coercion turns into NaN and `dropna` removes). -/
inductive Cell where
  | num (q : ℚ)
  | str (s : String)
deriving DecidableEq

/-- Numeric coercion of one cell: `pd.to_numeric(·, errors='coerce')`. -/
def Cell.toNum : Cell → Option ℚ
  | .num q => some q
  | .str _ => none

/-- `pd.to_numeric(col, errors='coerce').dropna().values`. -/
def dropna (col : List Cell) : List ℚ :=
  col.filterMap Cell.toNum

/-- An in-memory table: named columns and rows of cells
(`pandas.DataFrame`). -/
structure DataFrame where
  columns : List String
  rows : List (List Cell)

/-- Index of a named column, `none` when the column is absent. -/
def colIndex (cols : List String) (name : String) : Option ℕ :=
  cols.findIdx? (fun c => c = name)

/-- `df[name]` as a list of cells, `none` when the column is absent. -/
def getColumn (df : DataFrame) (name : String) : Option (List Cell) :=
  (colIndex df.columns name).map (fun i => df.rows.map (fun r => r.getD i (Cell.str "")))

/-- `SEQUENCE_LENGTH = 6`: window length W. -/
def SEQUENCE_LENGTH : ℕ := 6

/-- `pd.to_numeric(person_df['LengthofCycle'], errors='coerce').dropna().values`. -/
def cyclesOf (df : DataFrame) : List ℚ :=
  dropna ((getColumn df "LengthofCycle").getD [])

/-- The menses column after coercion and dropna, `none` when the column is
absent (`'LengthofMenses' in person_df.columns`). -/
def periodsOf (df : DataFrame) : Option (List ℚ) :=
  (getColumn df "LengthofMenses").map dropna

/-- `pd.to_numeric(person_df['Age'].iloc[0], errors='coerce')`, `none` when
the column is absent or the first value is non-numeric. -/
def ageOf (df : DataFrame) : Option ℚ :=
  match getColumn df "Age" with
  | none => none
  | some col =>
    match col.head? with
    | none => none
    | some c => c.toNum

/-- `pd.to_numeric(person_df['BMI'].iloc[0], errors='coerce')`, `none` when
the column is absent or the first value is non-numeric. -/
def bmiOf (df : DataFrame) : Option ℚ :=
  match getColumn df "BMI" with
  | none => none
  | some col =>
    match col.head? with
    | none => none
    | some c => c.toNum

/-- `np.mean`. -/
def meanQ (l : List ℚ) : ℚ :=
  l.sum / (l.length : ℚ)

/-- `np.min` on a nonempty array (the builder only applies it to the
6-element window). -/
def minQ : List ℚ → ℚ
  | [] => 0
  | x :: xs => xs.foldl min x

/-- `np.max` on a nonempty array. -/
def maxQ : List ℚ → ℚ
  | [] => 0
  | x :: xs => xs.foldl max x

/-- The period-length feature of the example at offset `i` (lines 92-102):
when the menses column exists and `len(period_lengths) > i + W`, the mean of
the values of `period_lengths[i : i+W]` strictly between 0 and 15 if any,
else 5.0; in every other case 5.0. -/
def periodFeature (periods : Option (List ℚ)) (W i : ℕ) : ℚ :=
  match periods with
  | none => 5
  | some pl =>
    if i + W < pl.length then
      let prevP := (pl.drop i).take W
      let validP := prevP.filter (fun p => decide (0 < p ∧ p < 15))
      if validP.isEmpty then 5 else meanQ validP
    else 5

/-- One iteration of the sliding-window loop (lines 75-108): the candidate
example at starting offset `i`, or `none` when the target or a windowed
value lies outside [15, 60]. -/
def exampleAt (stdFn : List ℚ → ℚ) (cycles : List ℚ) (periods : Option (List ℚ))
    (age bmi : Option ℚ) (W i : ℕ) : Option (List ℚ × ℚ) :=
  let prev := (cycles.drop i).take W
  let target := cycles.getD (i + W) 0
  if decide (target < 15) || decide (target > 60) then none
  else if prev.any (fun c => decide (c < 15) || decide (c > 60)) then none
  else some (prev ++ [meanQ prev, stdFn prev, minQ prev, maxQ prev,
                      periodFeature periods W i,
                      age.getD 30, bmi.getD 22],
             target)

/-- `prepare_features_per_person(person_df, sequence_length)`: parallel
feature and target sequences for one person's records. -/
def prepare_features_per_person (stdFn : List ℚ → ℚ) (df : DataFrame)
    (W : ℕ := SEQUENCE_LENGTH) : List (List ℚ) × List ℚ :=
  let cycles := cyclesOf df
  if cycles.length < W + 1 then ([], [])
  else
    let samples := (List.range (cycles.length - W)).filterMap
      (exampleAt stdFn cycles (periodsOf df) (ageOf df) (bmiOf df) W)
    (samples.map Prod.fst, samples.map Prod.snd)

/-- ASCII lowering of one character (`str.lower()` on the column names in
play, which are ASCII). -/
def lowerChar (c : Char) : Char :=
  if c.toNat < 65 then c
  else if c.toNat ≤ 90 then Char.ofNat (c.toNat + 32)
  else c

/-- `pat` occurs as a contiguous substring of `t` (python's `pat in s`). -/
def hasSubChars (pat t : List Char) : Bool :=
  (List.range (t.length + 1)).any
    (fun i => decide ((t.drop i).take pat.length = pat))

/-- The preferred identifier-column names, in preference order (line 120). -/
def preferredIdNames : List String :=
  ["ClientID", "ID", "Client", "Person", "Subject"]

/-- The fallback test of lines 126-129: the lowered column name contains
"id" or "client". -/
def idLikeName (col : String) : Bool :=
  hasSubChars ['i', 'd'] (col.toList.map lowerChar)
    || hasSubChars ['c', 'l', 'i', 'e', 'n', 't'] (col.toList.map lowerChar)

/-- Identifier-column selection of `prepare_dataset` (lines 118-129): first
preferred name present in the table, else the first column whose lowered
name contains "id" or "client", else none. -/
def findIdColumn (cols : List String) : Option String :=
  match preferredIdNames.find? (fun c => cols.contains c) with
  | some c => some c
  | none => cols.find? idLikeName

/-- `df[id_column].unique()`: the distinct values in order of first
appearance. -/
def uniqueInOrder (l : List Cell) : List Cell :=
  l.foldl (fun acc x => if acc.contains x then acc else acc ++ [x]) []

/-- Row comparison used by `sort_values('CycleNumber')`: compare the numeric
values of the key column, non-numeric (NaN) keys placed last. -/
def cycleNumLe (k : ℕ) (r s : List Cell) : Bool :=
  match (r.getD k (Cell.str "")).toNum, (s.getD k (Cell.str "")).toNum with
  | some x, some y => decide (x ≤ y)
  | some _, none => true
  | none, some _ => false
  | none, none => true

/-- Insert a row into a sorted list of rows. -/
def insertRow (le : List Cell → List Cell → Bool) (r : List Cell) :
    List (List Cell) → List (List Cell)
  | [] => [r]
  | s :: rest => if le r s then r :: s :: rest else s :: insertRow le r rest

/-- Sort rows by a comparison (models `person_df.sort_values('CycleNumber')`;
the claims do not depend on the tie-breaking order). -/
def sortRowsBy (le : List Cell → List Cell → Bool) :
    List (List Cell) → List (List Cell)
  | [] => []
  | r :: rest => insertRow le r (sortRowsBy le rest)

/-- `prepare_dataset(df)` (lines 113-152): pick the identifier column; with
none, treat the whole table as one person; otherwise group rows by
identifier value in order of first appearance, sort each group by
`CycleNumber` when that column exists, run the per-person builder on each
group and concatenate. -/
def prepare_dataset (stdFn : List ℚ → ℚ) (df : DataFrame) :
    List (List ℚ) × List ℚ :=
  match findIdColumn df.columns with
  | none => prepare_features_per_person stdFn df SEQUENCE_LENGTH
  | some idCol =>
    let k := (colIndex df.columns idCol).getD 0
    let ids := uniqueInOrder (df.rows.map (fun r => r.getD k (Cell.str "")))
    let groups := ids.map (fun pid =>
      let sub := df.rows.filter (fun r => decide (r.getD k (Cell.str "") = pid))
      let sub2 := if df.columns.contains "CycleNumber"
                  then sortRowsBy (cycleNumLe ((colIndex df.columns "CycleNumber").getD 0)) sub
                  else sub
      prepare_features_per_person stdFn ⟨df.columns, sub2⟩ SEQUENCE_LENGTH)
    ((groups.map Prod.fst).flatten, (groups.map Prod.snd).flatten)

/-- Outcome of `main` (lines 207-309): non-zero exit for a missing dataset
file (line 215), non-zero exit when feature extraction yields zero examples
(line 226), normal completion otherwise.  Training and export (external
library calls) do not branch to an error exit. -/
inductive ExitStatus where
  | fatalMissingFile
  | fatalNoSamples
  | normal
deriving DecidableEq

/-- The exit-status logic of `main`, over whether the dataset path exists
and the loaded table. -/
def mainOutcome (stdFn : List ℚ → ℚ) (fileExists : Bool) (df : DataFrame) :
    ExitStatus :=
  if fileExists = false then .fatalMissingFile
  else if (prepare_dataset stdFn df).1.length = 0 then .fatalNoSamples
  else .normal

/-- `StandardScaler.transform`: componentwise `(x - mean) / scale`. -/
def standardize (mean scale x : List ℚ) : List ℚ :=
  (x.zip (mean.zip scale)).map (fun p => (p.1 - p.2.1) / p.2.2)

/-- The inverse map `x * scale + mean` applied by the downstream consumer. -/
def unstandardize (mean scale z : List ℚ) : List ℚ :=
  (z.zip (mean.zip scale)).map (fun p => p.1 * p.2.2 + p.2.1)

/-- The period-length feature as the specification words it: the mean of the
valid (strictly between 0 and 15) period lengths among
`periods[i : i+W]` when at least one exists, else 5.0 — with no condition on
the length of the menses list.  Stated for comparison with `periodFeature`,
the translation of the code. -/
def claimedPeriodFeature (periods : List ℚ) (W i : ℕ) : ℚ :=
  let valid := ((periods.drop i).take W).filter (fun p => decide (0 < p ∧ p < 15))
  if valid.isEmpty then 5 else meanQ valid

/-- A concrete std function for witnesses; the builder never inspects it. -/
def stdFn0 : List ℚ → ℚ := fun _ => 0

/-- The candidate example at offset `i` is kept iff its target and all six
windowed values lie in [15, 60]. -/
def offsetValid (cycles : List ℚ) (W i : ℕ) : Bool :=
  decide (15 ≤ cycles.getD (i + W) 0 ∧ cycles.getD (i + W) 0 ≤ 60) &&
  ((cycles.drop i).take W).all (fun c => decide (15 ≤ c ∧ c ≤ 60))

/- Concrete tables used by witnesses and by the scenario claims. -/

/-- The §8 scenario table: seven numeric cycle lengths, no other columns. -/
def df6 : DataFrame :=
  ⟨["LengthofCycle"],
   [[.num 28], [.num 30], [.num 29], [.num 27], [.num 31], [.num 28], [.num 29]]⟩

/-- Eight in-range cycle lengths. -/
def df1w : DataFrame :=
  ⟨["LengthofCycle"],
   [[.num 25], [.num 26], [.num 27], [.num 28], [.num 29], [.num 30],
    [.num 31], [.num 32]]⟩

/-- Four numeric cycle lengths and one non-numeric entry: fewer than seven
valid values. -/
def df4w : DataFrame :=
  ⟨["LengthofCycle"],
   [[.num 28], [.num 30], [.str "n/a"], [.num 29], [.num 31]]⟩

/-- Seven in-range cycle lengths next to a menses column whose dropna keeps
only six values: the guard `len(period_lengths) > i + W` fails at offset 0
although valid menses values fill the window range. -/
def dfC3 : DataFrame :=
  ⟨["LengthofCycle", "LengthofMenses"],
   [[.num 28, .num 4], [.num 28, .num 4], [.num 28, .num 4], [.num 28, .num 4],
    [.num 28, .num 4], [.num 28, .num 4], [.num 29, .str ""]]⟩

/-- A table with a `CycleNumber` column, no identifier column, and rows out
of `CycleNumber` order. -/
def df10 : DataFrame :=
  ⟨["CycleNumber", "LengthofCycle"],
   [[.num 7, .num 20], [.num 1, .num 21], [.num 2, .num 22], [.num 3, .num 23],
    [.num 4, .num 24], [.num 5, .num 25], [.num 6, .num 26]]⟩

/-- The rows of `df10` rearranged into `CycleNumber` order. -/
def df10sorted : DataFrame :=
  ⟨["CycleNumber", "LengthofCycle"],
   [[.num 1, .num 21], [.num 2, .num 22], [.num 3, .num 23], [.num 4, .num 24],
    [.num 5, .num 25], [.num 6, .num 26], [.num 7, .num 20]]⟩

/-- The feature list of the kept example at offset `i`. -/
def featuresAt (stdFn : List ℚ → ℚ) (cycles : List ℚ)
    (periods : Option (List ℚ)) (age bmi : Option ℚ) (W i : ℕ) : List ℚ :=
  ((cycles.drop i).take W)
    ++ [meanQ ((cycles.drop i).take W), stdFn ((cycles.drop i).take W),
        minQ ((cycles.drop i).take W), maxQ ((cycles.drop i).take W),
        periodFeature periods W i, age.getD 30, bmi.getD 22]

/-- The period-length feature as the code computes it, phrased through the
specification's formula: the claimed mean applies only under the additional
guard that the dropna'd menses list is longer than `i + 6`. -/
def guardedPeriodFeature (periods : Option (List ℚ)) (i : ℕ) : ℚ :=
  match periods with
  | none => 5
  | some pl => if i + 6 < pl.length then claimedPeriodFeature pl 6 i else 5

/- Helper lemmas. -/

/-- `filterMap` degenerates to `map` when the function succeeds on every
element. -/
theorem filterMap_eq_map_of_forall {α β : Type} (f : α → Option β) (g : α → β)
    (l : List α) (h : ∀ a ∈ l, f a = some (g a)) :
    l.filterMap f = l.map g := by
  induction l with
  | nil => rfl
  | cons a l ih =>
    rw [List.filterMap_cons, h a (List.mem_cons_self a l), List.map_cons,
      ih (fun x hx => h x (List.mem_cons_of_mem a hx))]

/-- The length of a `filterMap` counts the elements on which the function
succeeds. -/
theorem length_filterMap_eq_length_filter {α β : Type} (f : α → Option β)
    (l : List α) :
    (l.filterMap f).length = (l.filter (fun a => (f a).isSome)).length := by
  induction l with
  | nil => rfl
  | cons a l ih =>
    rw [List.filterMap_cons, List.filter_cons]
    cases hfa : f a <;> simp [hfa, ih]

/-- `exampleAt` with its local bindings inlined. -/
theorem exampleAt_def (stdFn : List ℚ → ℚ) (cycles : List ℚ)
    (periods : Option (List ℚ)) (age bmi : Option ℚ) (W i : ℕ) :
    exampleAt stdFn cycles periods age bmi W i
      = if decide (cycles.getD (i + W) 0 < 15)
           || decide (cycles.getD (i + W) 0 > 60) then none
        else if ((cycles.drop i).take W).any
            (fun c => decide (c < 15) || decide (c > 60)) then none
        else some (featuresAt stdFn cycles periods age bmi W i,
                   cycles.getD (i + W) 0) := rfl

/-- `prepare_features_per_person` with its local bindings inlined. -/
theorem prepare_features_def (stdFn : List ℚ → ℚ) (df : DataFrame) (W : ℕ) :
    prepare_features_per_person stdFn df W
      = if (cyclesOf df).length < W + 1 then ([], [])
        else
          (((List.range ((cyclesOf df).length - W)).filterMap
              (exampleAt stdFn (cyclesOf df) (periodsOf df) (ageOf df)
                (bmiOf df) W)).map Prod.fst,
           ((List.range ((cyclesOf df).length - W)).filterMap
              (exampleAt stdFn (cyclesOf df) (periodsOf df) (ageOf df)
                (bmiOf df) W)).map Prod.snd) := rfl

/-- A candidate example survives the two range checks iff `offsetValid`. -/
theorem exampleAt_isSome_iff (stdFn : List ℚ → ℚ) (cycles : List ℚ)
    (periods : Option (List ℚ)) (age bmi : Option ℚ) (W i : ℕ) :
    (exampleAt stdFn cycles periods age bmi W i).isSome
      = offsetValid cycles W i := by
  rw [← Bool.coe_iff_coe, exampleAt_def]
  unfold offsetValid
  split_ifs with h1 h2 <;>
    simp only [Bool.or_eq_true, decide_eq_true_eq, List.any_eq_true,
      Option.isSome_none, Option.isSome_some, Bool.and_eq_true,
      List.all_eq_true, not_lt] at *
  · constructor
    · intro hcon
      exact absurd hcon Bool.false_ne_true
    · rintro ⟨⟨hl, hr⟩, -⟩
      rcases h1 with h | h
      · exact absurd hl (not_le.mpr h)
      · exact absurd hr (not_le.mpr h)
  · constructor
    · intro hcon
      exact absurd hcon Bool.false_ne_true
    · rintro ⟨-, hall⟩
      rcases h2 with ⟨c, hc, h | h⟩
      · exact absurd (hall c hc).1 (not_le.mpr h)
      · exact absurd (hall c hc).2 (not_le.mpr h)
  · push_neg at h1 h2
    refine ⟨fun _ => ⟨⟨h1.1, h1.2⟩, fun c hc => ?_⟩, fun _ => trivial⟩
    have h2c := h2 c hc
    push_neg at h2c
    exact ⟨h2c.1, h2c.2⟩

/-- Inversion of a kept example: its shape and the range facts the two
checks enforce. -/
theorem exampleAt_eq_some {stdFn : List ℚ → ℚ} {cycles : List ℚ}
    {periods : Option (List ℚ)} {age bmi : Option ℚ} {W i : ℕ}
    {f : List ℚ} {t : ℚ}
    (h : exampleAt stdFn cycles periods age bmi W i = some (f, t)) :
    (15 ≤ t ∧ t ≤ 60) ∧
    (∀ c ∈ (cycles.drop i).take W, 15 ≤ c ∧ c ≤ 60) ∧
    f = featuresAt stdFn cycles periods age bmi W i ∧
    t = cycles.getD (i + W) 0 := by
  rw [exampleAt_def] at h
  split_ifs at h with h1 h2
  obtain ⟨hf, ht⟩ : featuresAt stdFn cycles periods age bmi W i = f ∧
      cycles.getD (i + W) 0 = t := by
    have := Option.some.inj h
    exact ⟨congrArg Prod.fst this, congrArg Prod.snd this⟩
  simp only [Bool.or_eq_true, decide_eq_true_eq, not_or, not_lt] at h1
  simp only [List.any_eq_true, Bool.or_eq_true, decide_eq_true_eq, not_exists,
    not_or, not_lt] at h2
  subst hf ht
  refine ⟨⟨h1.1, h1.2⟩, fun c hc => ?_, rfl, rfl⟩
  have h2c := h2 c
  rw [not_and_or] at h2c
  rcases h2c with h2c | h2c
  · exact absurd hc h2c
  · push_neg at h2c
    exact ⟨h2c.1, h2c.2⟩

/-- When every cycle value is in range, the candidate at each in-bounds
offset is kept and has the expected window and target. -/
theorem exampleAt_of_valid (stdFn : List ℚ → ℚ) (cycles : List ℚ)
    (periods : Option (List ℚ)) (age bmi : Option ℚ) (i : ℕ)
    (h6 : i + 6 < cycles.length)
    (hall : ∀ c ∈ cycles, 15 ≤ c ∧ c ≤ 60) :
    exampleAt stdFn cycles periods age bmi 6 i
      = some (featuresAt stdFn cycles periods age bmi 6 i,
              cycles.getD (i + 6) 0) := by
  have hmem : cycles.getD (i + 6) 0 ∈ cycles := by
    rw [List.getD_eq_getElem cycles 0 h6]
    exact List.getElem_mem h6
  have ht := hall _ hmem
  rw [exampleAt_def, if_neg, if_neg]
  · simp only [List.any_eq_true, Bool.or_eq_true, decide_eq_true_eq]
    push_neg
    intro c hc
    have hcm : c ∈ cycles := List.mem_of_mem_drop (List.mem_of_mem_take hc)
    exact ⟨(hall c hcm).1, (hall c hcm).2⟩
  · simp only [Bool.or_eq_true, decide_eq_true_eq]
    push_neg
    exact ⟨ht.1, ht.2⟩

/-- `standardize` acts componentwise on cons cells. -/
theorem standardize_cons (m s a : ℚ) (ms ss x : List ℚ) :
    standardize (m :: ms) (s :: ss) (a :: x)
      = ((a - m) / s) :: standardize ms ss x := rfl

/-- `unstandardize` acts componentwise on cons cells. -/
theorem unstandardize_cons (m s a : ℚ) (ms ss z : List ℚ) :
    unstandardize (m :: ms) (s :: ss) (a :: z)
      = (a * s + m) :: unstandardize ms ss z := rfl

/-- Round trip of the scaling maps on lists of equal length with nonzero
scales. -/
theorem unstd_std {x mean scale : List ℚ} (hx : x.length = mean.length)
    (hm : mean.length = scale.length) (hs : ∀ s ∈ scale, s ≠ 0) :
    unstandardize mean scale (standardize mean scale x) = x := by
  induction x generalizing mean scale with
  | nil => rfl
  | cons a x ih =>
    cases mean with
    | nil => exact absurd hx (by simp)
    | cons m ms =>
      cases scale with
      | nil => exact absurd hm (by simp)
      | cons s ss =>
        have hs0 : s ≠ 0 := hs s (List.mem_cons_self s ss)
        rw [standardize_cons, unstandardize_cons]
        refine congrArg₂ List.cons ?_ ?_
        · rw [div_mul_cancel₀ _ hs0]
          ring
        · exact ih (by simpa using hx) (by simpa using hm)
            (fun u hu => hs u (List.mem_cons_of_mem s hu))

/-- `getD` past a left factor of known length. -/
theorem getD_append_of_length_le (l₁ l₂ : List ℚ) (n : ℕ)
    (h : l₁.length ≤ n) :
    (l₁ ++ l₂).getD n 0 = l₂.getD (n - l₁.length) 0 := by
  induction l₁ generalizing n with
  | nil => simp
  | cons a l ih =>
    cases n with
    | zero => simp at h
    | succ n => simpa using ih n (by simpa using h)

/-- The window of a kept example has exactly the window length when the
offset leaves room for it. -/
theorem window_length (cycles : List ℚ) (i : ℕ) (h : i + 6 ≤ cycles.length) :
    ((cycles.drop i).take 6).length = 6 := by
  rw [List.length_take, List.length_drop]
  omega

/- Claim theorems. -/

/-- C4: an entity whose records yield fewer than seven valid (numeric)
cycle-length values produces zero examples — empty feature and target
sequences, not an error. -/
theorem c4_insufficient_cycles_empty (stdFn : List ℚ → ℚ) (df : DataFrame)
    (h : (cyclesOf df).length < 7) :
    prepare_features_per_person stdFn df 6 = ([], []) := by
  rw [prepare_features_def, if_pos h]

/-- Witness for C4 on a table with four numeric and one non-numeric cycle
entries. -/
theorem c4_insufficient_cycles_empty_witness :
    (cyclesOf df4w).length < 7 ∧
    prepare_features_per_person stdFn0 df4w 6 = ([], []) :=
  ⟨by decide, c4_insufficient_cycles_empty stdFn0 df4w (by decide)⟩

/-- C6: the scenario table with cycles [28,30,29,27,31,28,29] and no
age/BMI/menses data yields exactly one example with window
[28,30,29,27,31,28], target 29, and default period-length 5.0, age 30.0 and
BMI 22.0 features (components 11, 12, 13). -/
theorem c6_scenario (stdFn : List ℚ → ℚ) :
    (prepare_features_per_person stdFn df6 6).1.length = 1 ∧
    ((prepare_features_per_person stdFn df6 6).1.getD 0 []).take 6
        = [28, 30, 29, 27, 31, 28] ∧
    (prepare_features_per_person stdFn df6 6).2 = [29] ∧
    ((prepare_features_per_person stdFn df6 6).1.getD 0 []).getD 10 0 = 5 ∧
    ((prepare_features_per_person stdFn df6 6).1.getD 0 []).getD 11 0 = 30 ∧
    ((prepare_features_per_person stdFn df6 6).1.getD 0 []).getD 12 0 = 22 :=
  ⟨rfl, rfl, rfl, rfl, rfl, rfl⟩

/-- C10: with no identifier column found, `prepare_dataset` hands the whole
table to the feature builder in original row order — the CycleNumber sort of
the grouped path is not applied. -/
theorem c10_no_id_no_sort (stdFn : List ℚ → ℚ) (df : DataFrame)
    (h : findIdColumn df.columns = none) :
    prepare_dataset stdFn df
      = prepare_features_per_person stdFn df SEQUENCE_LENGTH := by
  unfold prepare_dataset
  rw [h]

/-- Witness for C10: a table with a `CycleNumber` column but no identifier
column is processed in file order (target 26), not in `CycleNumber` order
(which would give target 20). -/
theorem c10_no_id_no_sort_witness :
    findIdColumn df10.columns = none ∧
    df10.columns.contains "CycleNumber" = true ∧
    prepare_dataset stdFn0 df10
      = prepare_features_per_person stdFn0 df10 SEQUENCE_LENGTH ∧
    (prepare_features_per_person stdFn0 df10 SEQUENCE_LENGTH).2 = [26] ∧
    (prepare_features_per_person stdFn0 df10sorted SEQUENCE_LENGTH).2 = [20] :=
  ⟨by decide, by decide, c10_no_id_no_sort stdFn0 df10 (by decide),
   by decide, by decide⟩

/-- C5: the pipeline exits non-zero exactly for a missing input file or an
empty extracted dataset, and otherwise completes normally; data anomalies
inside feature extraction only drop or default values and cannot reach an
error exit. -/
theorem c5_exit_conditions (stdFn : List ℚ → ℚ) (fileExists : Bool)
    (df : DataFrame) :
    (mainOutcome stdFn fileExists df = .fatalMissingFile
       ↔ fileExists = false) ∧
    (mainOutcome stdFn fileExists df = .fatalNoSamples
       ↔ fileExists = true ∧ (prepare_dataset stdFn df).1 = []) ∧
    (mainOutcome stdFn fileExists df = .normal
       ↔ fileExists = true ∧ (prepare_dataset stdFn df).1 ≠ []) := by
  unfold mainOutcome
  cases fileExists <;> split_ifs with h <;>
    simp_all [List.length_eq_zero]

/-- C7: identifier-column selection — first preferred name present, else
first column whose lowered name contains "id" or "client", else none, in
which case the whole table is still fed to the feature builder. -/
theorem c7_id_column_selection (stdFn : List ℚ → ℚ) (df : DataFrame)
    (c : String) :
    (preferredIdNames.find? (fun n => df.columns.contains n) = some c →
       findIdColumn df.columns = some c) ∧
    (preferredIdNames.find? (fun n => df.columns.contains n) = none →
       df.columns.find? idLikeName = some c →
       findIdColumn df.columns = some c) ∧
    (preferredIdNames.find? (fun n => df.columns.contains n) = none →
       df.columns.find? idLikeName = none →
       findIdColumn df.columns = none ∧
       prepare_dataset stdFn df
         = prepare_features_per_person stdFn df SEQUENCE_LENGTH) := by
  refine ⟨fun h1 => ?_, fun h1 h2 => ?_, fun h1 h2 => ⟨?_, ?_⟩⟩
  · unfold findIdColumn
    rw [h1]
  · unfold findIdColumn
    rw [h1]
    exact h2
  · unfold findIdColumn
    rw [h1]
    exact h2
  · have hnone : findIdColumn df.columns = none := by
      unfold findIdColumn
      rw [h1]
      exact h2
    unfold prepare_dataset
    rw [hnone]

/-- Witness for C7: one table per selection tier. -/
theorem c7_id_column_selection_witness :
    findIdColumn (DataFrame.mk ["Age", "ClientID"] []).columns
        = some "ClientID" ∧
    findIdColumn (DataFrame.mk ["foo", "userid", "bar"] []).columns
        = some "userid" ∧
    (findIdColumn df6.columns = none ∧
     prepare_dataset stdFn0 df6
       = prepare_features_per_person stdFn0 df6 SEQUENCE_LENGTH) :=
  ⟨(c7_id_column_selection stdFn0 (DataFrame.mk ["Age", "ClientID"] [])
      "ClientID").1 (by decide),
   (c7_id_column_selection stdFn0 (DataFrame.mk ["foo", "userid", "bar"] [])
      "userid").2.1 (by decide) (by decide),
   (c7_id_column_selection stdFn0 df6 "").2.2 (by decide) (by decide)⟩

/-- C8: standardization is `(x - mean) / scale` and the downstream inverse
`x * scale + mean` recovers every 13-component raw vector exactly over ℚ,
given the nonzero per-feature scales the fitted scaler guarantees. -/
theorem c8_standardization_roundtrip (mean scale x : List ℚ)
    (hx : x.length = 13) (hm : mean.length = 13) (hs : scale.length = 13)
    (h0 : ∀ s ∈ scale, s ≠ 0) :
    unstandardize mean scale (standardize mean scale x) = x :=
  unstd_std (by rw [hx, hm]) (by rw [hm, hs]) h0

/-- Witness for C8 on concrete 13-component vectors. -/
theorem c8_standardization_roundtrip_witness :
    unstandardize [3, 1, 4, 1, 5, 9, 2, 6, 5, 3, 5, 8, 9]
        [2, 1, 2, 1, 2, 1, 2, 1, 2, 1, 2, 1, 2]
        (standardize [3, 1, 4, 1, 5, 9, 2, 6, 5, 3, 5, 8, 9]
          [2, 1, 2, 1, 2, 1, 2, 1, 2, 1, 2, 1, 2]
          [28, 30, 29, 27, 31, 28, 29, 1, 27, 31, 5, 30, 22])
      = [28, 30, 29, 27, 31, 28, 29, 1, 27, 31, 5, 30, 22] :=
  c8_standardization_roundtrip _ _ _ (by decide) (by decide) (by decide)
    (by decide)

/-- C1: over a valid all-in-range cycle sequence of length N ≥ 7 the builder
yields exactly N − 6 examples, example i carrying window cycles[i .. i+6)
and target cycles[i+6]. -/
theorem c1_sliding_window (stdFn : List ℚ → ℚ) (df : DataFrame)
    (hN : 7 ≤ (cyclesOf df).length)
    (hall : ∀ c ∈ cyclesOf df, 15 ≤ c ∧ c ≤ 60) :
    (prepare_features_per_person stdFn df 6).1.length
        = (cyclesOf df).length - 6 ∧
    (prepare_features_per_person stdFn df 6).2.length
        = (cyclesOf df).length - 6 ∧
    ∀ i, i < (cyclesOf df).length - 6 →
      ((prepare_features_per_person stdFn df 6).1.getD i []).take 6
          = ((cyclesOf df).drop i).take 6 ∧
      (prepare_features_per_person stdFn df 6).2.getD i 0
          = (cyclesOf df).getD (i + 6) 0 := by
  have hmap : (List.range ((cyclesOf df).length - 6)).filterMap
        (exampleAt stdFn (cyclesOf df) (periodsOf df) (ageOf df) (bmiOf df) 6)
      = (List.range ((cyclesOf df).length - 6)).map
          (fun i => (featuresAt stdFn (cyclesOf df) (periodsOf df) (ageOf df)
              (bmiOf df) 6 i, (cyclesOf df).getD (i + 6) 0)) := by
    apply filterMap_eq_map_of_forall
    intro i hi
    rw [List.mem_range] at hi
    exact exampleAt_of_valid stdFn (cyclesOf df) (periodsOf df) (ageOf df)
      (bmiOf df) i (by omega) hall
  rw [prepare_features_def, if_neg (by omega)]
  simp only [hmap, List.map_map]
  refine ⟨by simp, by simp, fun i hi => ⟨?_, ?_⟩⟩
  · rw [List.getD_eq_getElem _ _ (by simpa using hi)]
    simp only [List.getElem_map, List.getElem_range, Function.comp_apply]
    show (featuresAt stdFn (cyclesOf df) (periodsOf df) (ageOf df)
        (bmiOf df) 6 i).take 6 = ((cyclesOf df).drop i).take 6
    unfold featuresAt
    exact List.take_left' (window_length (cyclesOf df) i (by omega))
  · rw [List.getD_eq_getElem _ _ (by simpa using hi)]
    simp only [List.getElem_map, List.getElem_range, Function.comp_apply]

/-- Witness for C1 on eight in-range cycle lengths (two examples). -/
theorem c1_sliding_window_witness :
    7 ≤ (cyclesOf df1w).length ∧
    (prepare_features_per_person stdFn0 df1w 6).1.length
        = (cyclesOf df1w).length - 6 ∧
    ((prepare_features_per_person stdFn0 df1w 6).1.getD 1 []).take 6
        = ((cyclesOf df1w).drop 1).take 6 ∧
    (prepare_features_per_person stdFn0 df1w 6).2.getD 1 0
        = (cyclesOf df1w).getD 7 0 :=
  ⟨by decide,
   (c1_sliding_window stdFn0 df1w (by decide) (by decide)).1,
   ((c1_sliding_window stdFn0 df1w (by decide) (by decide)).2.2 1
      (by decide)).1,
   ((c1_sliding_window stdFn0 df1w (by decide) (by decide)).2.2 1
      (by decide)).2⟩

/-- C2: every returned example has its target and all six windowed values in
[15, 60], and the number of examples equals the number of candidate offsets
passing that check — out-of-range candidates are skipped whole, never
clamped. -/
theorem c2_range_filter (stdFn : List ℚ → ℚ) (df : DataFrame) :
    (∀ j, j < (prepare_features_per_person stdFn df 6).1.length →
       (15 ≤ (prepare_features_per_person stdFn df 6).2.getD j 0 ∧
        (prepare_features_per_person stdFn df 6).2.getD j 0 ≤ 60) ∧
       (∀ c ∈ ((prepare_features_per_person stdFn df 6).1.getD j []).take 6,
          15 ≤ c ∧ c ≤ 60)) ∧
    (prepare_features_per_person stdFn df 6).1.length
      = ((List.range ((cyclesOf df).length - 6)).filter
          (offsetValid (cyclesOf df) 6)).length := by
  rw [prepare_features_def]
  split_ifs with hshort
  · refine ⟨fun j hj => absurd hj (by simp), ?_⟩
    have h0 : (cyclesOf df).length - 6 = 0 := by omega
    rw [h0]
    rfl
  · constructor
    · intro j hj
      rw [List.length_map] at hj
      set L := (List.range ((cyclesOf df).length - 6)).filterMap
        (exampleAt stdFn (cyclesOf df) (periodsOf df) (ageOf df) (bmiOf df) 6)
        with hL
      have hmem : L.get ⟨j, hj⟩ ∈ L := List.get_mem L j hj
      obtain ⟨i, hi, hsome⟩ := List.mem_filterMap.mp hmem
      rw [List.mem_range] at hi
      have hXj : (L.map Prod.fst).getD j [] = (L.get ⟨j, hj⟩).1 := by
        rw [List.getD_eq_getElem _ _ (by simpa using hj)]
        simp [List.getElem_map]
      have hyj : (L.map Prod.snd).getD j 0 = (L.get ⟨j, hj⟩).2 := by
        rw [List.getD_eq_getElem _ _ (by simpa using hj)]
        simp [List.getElem_map]
      have hsome2 : exampleAt stdFn (cyclesOf df) (periodsOf df) (ageOf df)
          (bmiOf df) 6 i
          = some ((L.get ⟨j, hj⟩).1, (L.get ⟨j, hj⟩).2) := by
        rw [Prod.mk.eta]
        exact hsome
      have hinv := exampleAt_eq_some hsome2
      refine ⟨⟨hyj ▸ hinv.1.1, hyj ▸ hinv.1.2⟩, fun c hc => ?_⟩
      rw [hXj, hinv.2.2.1] at hc
      have htake : (featuresAt stdFn (cyclesOf df) (periodsOf df) (ageOf df)
            (bmiOf df) 6 i).take 6 = ((cyclesOf df).drop i).take 6 := by
        unfold featuresAt
        exact List.take_left' (window_length (cyclesOf df) i (by omega))
      rw [htake] at hc
      exact hinv.2.1 c hc
    · rw [List.length_map, length_filterMap_eq_length_filter]
      exact congrArg List.length (List.filter_congr (fun i _ =>
        exampleAt_isSome_iff stdFn (cyclesOf df) (periodsOf df) (ageOf df)
          (bmiOf df) 6 i))

/-- Witness for C2 on the scenario table: its single example is in range on
target and window. -/
theorem c2_range_filter_witness :
    0 < (prepare_features_per_person stdFn0 df6 6).1.length ∧
    ((15 ≤ (prepare_features_per_person stdFn0 df6 6).2.getD 0 0 ∧
      (prepare_features_per_person stdFn0 df6 6).2.getD 0 0 ≤ 60) ∧
     (∀ c ∈ ((prepare_features_per_person stdFn0 df6 6).1.getD 0 []).take 6,
        15 ≤ c ∧ c ≤ 60)) :=
  ⟨by decide, (c2_range_filter stdFn0 df6).1 0 (by decide)⟩

/-- C9: the two output sequences are parallel, and every feature vector has
13 components in the fixed order: the six window values, then window mean,
std, min, max, period-length aggregate, age, BMI. -/
theorem c9_parallel_13 (stdFn : List ℚ → ℚ) (df : DataFrame) :
    (prepare_features_per_person stdFn df 6).1.length
        = (prepare_features_per_person stdFn df 6).2.length ∧
    ∀ f ∈ (prepare_features_per_person stdFn df 6).1,
      f.length = 13 ∧
      ∃ w p, w.length = 6 ∧
        f = w ++ [meanQ w, stdFn w, minQ w, maxQ w, p,
                  (ageOf df).getD 30, (bmiOf df).getD 22] := by
  rw [prepare_features_def]
  split_ifs with hshort
  · exact ⟨rfl, fun f hf => absurd hf (List.not_mem_nil f)⟩
  · refine ⟨by simp, fun f hf => ?_⟩
    rw [List.mem_map] at hf
    obtain ⟨pair, hpair, hf⟩ := hf
    obtain ⟨i, hi, hsome⟩ := List.mem_filterMap.mp hpair
    rw [List.mem_range] at hi
    have hsome2 : exampleAt stdFn (cyclesOf df) (periodsOf df) (ageOf df)
        (bmiOf df) 6 i = some (pair.1, pair.2) := by
      rw [Prod.mk.eta]
      exact hsome
    have hinv := exampleAt_eq_some hsome2
    have hflen := window_length (cyclesOf df) i (by omega)
    refine ⟨?_, ((cyclesOf df).drop i).take 6,
      periodFeature (periodsOf df) 6 i, hflen, ?_⟩
    · rw [← hf, hinv.2.2.1]
      unfold featuresAt
      simp [hflen]
    · rw [← hf, hinv.2.2.1]
      rfl

/-- Witness for C9 on the scenario table. -/
theorem c9_parallel_13_witness :
    (prepare_features_per_person stdFn0 df6 6).1.length
        = (prepare_features_per_person stdFn0 df6 6).2.length ∧
    (((prepare_features_per_person stdFn0 df6 6).1.getD 0 []).length = 13 ∧
     ∃ w p, w.length = 6 ∧
       (prepare_features_per_person stdFn0 df6 6).1.getD 0 []
         = w ++ [meanQ w, stdFn0 w, minQ w, maxQ w, p,
                 (ageOf df6).getD 30, (bmiOf df6).getD 22]) :=
  ⟨(c9_parallel_13 stdFn0 df6).1,
   (c9_parallel_13 stdFn0 df6).2 _ (by
     rw [List.getD_eq_getElem _ _ (by decide)]
     exact List.getElem_mem (by decide))⟩

/-- C3, counterexample: in `dfC3` the menses dropna keeps six valid values
filling the window range of offset 0, yet the builder emits the default 5
because of the guard `len(period_lengths) > i + W`; the claim's formula
gives their mean 4. -/
theorem c3_counterexample :
    ((prepare_features_per_person stdFn0 dfC3 6).1.getD 0 []).getD 10 0 = 5 ∧
    ((((periodsOf dfC3).getD []).drop 0).take 6).filter
        (fun p => decide (0 < p ∧ p < 15)) ≠ [] ∧
    claimedPeriodFeature ((periodsOf dfC3).getD []) 6 0 = 4 ∧
    (5 : ℚ) ≠ 4 := by
  have hp : (periodsOf dfC3).getD [] = [4, 4, 4, 4, 4, 4] := rfl
  refine ⟨rfl, by rw [hp]; decide, ?_, by norm_num⟩
  rw [hp]
  show (if ([4, 4, 4, 4, 4, 4] : List ℚ).isEmpty then 5
        else meanQ [4, 4, 4, 4, 4, 4]) = 4
  norm_num [meanQ]

/-- C3 as amended: the period-length feature of the kept example at offset
`i` equals the claimed mean-of-valid-periods formula only when the dropna'd
menses list has more than `i + 6` entries; with the column absent or the
list not longer than `i + 6`, it is the default 5.0. -/
theorem c3_amended_period_feature (stdFn : List ℚ → ℚ) (cycles : List ℚ)
    (periods : Option (List ℚ)) (age bmi : Option ℚ) (i : ℕ)
    (f : List ℚ) (t : ℚ)
    (hwin : i + 6 ≤ cycles.length)
    (h : exampleAt stdFn cycles periods age bmi 6 i = some (f, t)) :
    f.getD 10 0 = guardedPeriodFeature periods i := by
  have hinv := exampleAt_eq_some h
  rw [hinv.2.2.1]
  unfold featuresAt
  rw [getD_append_of_length_le _ _ 10
      (by rw [window_length cycles i hwin]; omega),
    window_length cycles i hwin]
  show periodFeature periods 6 i = _
  cases periods with
  | none => rfl
  | some pl => rfl

/-- Witness for the amended C3: seven menses values make the guard pass and
the feature is the mean 4 of the six windowed valid values. -/
theorem c3_amended_period_feature_witness :
    (featuresAt stdFn0 [28, 28, 28, 28, 28, 28, 29] (some [4, 4, 4, 4, 4, 4, 4])
        none none 6 0).getD 10 0
      = guardedPeriodFeature (some [4, 4, 4, 4, 4, 4, 4]) 0 ∧
    guardedPeriodFeature (some [4, 4, 4, 4, 4, 4, 4]) 0 = 4 :=
  ⟨c3_amended_period_feature stdFn0 [28, 28, 28, 28, 28, 28, 29]
     (some [4, 4, 4, 4, 4, 4, 4]) none none 0
     (featuresAt stdFn0 [28, 28, 28, 28, 28, 28, 29] (some [4, 4, 4, 4, 4, 4, 4])
        none none 6 0)
     29 (by decide)
     (exampleAt_of_valid stdFn0 [28, 28, 28, 28, 28, 28, 29]
        (some [4, 4, 4, 4, 4, 4, 4]) none none 0 (by decide) (by decide)),
   by
     show (if ([4, 4, 4, 4, 4, 4] : List ℚ).isEmpty then 5
           else meanQ [4, 4, 4, 4, 4, 4]) = 4
     norm_num [meanQ]⟩
